import Mathlib

/-!
Verification of the two-tier keystore facade (`src/index.ts`).

The development shallowly embeds the `Database` class: the Redis cache is an
association list of keys to entries (value plus optional TTL), the MySQL table
is a partial map from keys to values, and every adapter operation returns its
result together with the successor state and the list of events it emitted
(mirroring `this.emit(...)` calls in the source). External failures of the
underlying clients are modelled by a `Faults` record: a raised flag makes the
corresponding client call reject, and the embedding reproduces exactly the
try/catch structure of the source (only `getRedisApi.get` and
`getRedisApi.set` catch; the SQL adapter and `getRedisApi.delete` let the
rejection propagate).

JavaScript truthiness on strings (`if (value)`) is modelled by `truthyStr`,
which is false for `null` (`none`) and for the empty string; truthiness on the
numeric `expire` option is the `≠ 0` test inside `redisSet`.
-/

/-- A Redis cache entry: the stored string and its optional TTL
(set by a separate `EXPIRE` call in `getRedisApi.set`). -/
structure CacheEntry where
  value : String
  ttl : Option Nat
deriving DecidableEq, Repr

/-- The volatile cache: an association list from keys to entries.
Earlier entries shadow later ones; all operations keep keys unique. -/
def RCache : Type := List (String × CacheEntry)

/-- The durable MySQL table `storekey` as a partial map `keyX ↦ valueX`. -/
def SqlTable : Type := String → Option String

/-- Combined state of the two tiers. -/
structure DBState where
  sql : SqlTable
  cache : RCache

/-- A structured observability event, as emitted by `this.emit(op, {key, value, on})`.
`value = none` models both a `null` value field and an absent value field
(the SQL delete event carries no value field at all). -/
structure StoreEvent where
  op : String
  key : String
  value : Option String
  tier : String
deriving DecidableEq, Repr

/-- Which underlying client calls reject, modelling network/server failures. -/
structure Faults where
  sqlGetFails : Bool
  sqlSetFails : Bool
  sqlDeleteFails : Bool
  redisGetFails : Bool
  redisSetFails : Bool
  redisDelFails : Bool
deriving DecidableEq, Repr

def noFaults : Faults := ⟨false, false, false, false, false, false⟩

def sqlGetFail : Faults := ⟨true, false, false, false, false, false⟩

def sqlSetFail : Faults := ⟨false, true, false, false, false, false⟩

def redisGetFail : Faults := ⟨false, false, false, true, false, false⟩

def redisSetFail : Faults := ⟨false, false, false, false, true, false⟩

def redisDelFail : Faults := ⟨false, false, false, false, false, true⟩

/-- JavaScript truthiness of a `string | null` value: `null` and `""` are falsy. -/
def truthyStr : Option String → Bool
  | none => false
  | some s => if s = "" then false else true

/-- Lookup in the cache association list (Redis `GET`, before projecting the value). -/
def cacheLookup : RCache → String → Option CacheEntry
  | [], _ => none
  | p :: rest, k => if p.1 = k then some p.2 else cacheLookup rest k

/-- Remove every entry for a key. -/
def cacheRemove : RCache → String → RCache
  | [], _ => []
  | p :: rest, k => if p.1 = k then cacheRemove rest k else p :: cacheRemove rest k

/-- Redis `SET key value`: overwrite the entry, with no TTL. -/
def clientSet (c : RCache) (k v : String) : RCache :=
  (k, ⟨v, none⟩) :: cacheRemove c k

/-- Redis `GET key`: the stored string, or `null`. -/
def clientGet (c : RCache) (k : String) : Option String :=
  (cacheLookup c k).map CacheEntry.value

/-- Redis `EXPIRE key t`: set the TTL of the existing entry for `k`. -/
def clientExpire : RCache → String → Nat → RCache
  | [], _, _ => []
  | p :: rest, k, t =>
    if p.1 = k then (p.1, ⟨p.2.value, some t⟩) :: clientExpire rest k t
    else p :: clientExpire rest k t

/-- Boolean membership of a key in a key list. -/
def keyMem (k : String) : List String → Bool
  | [] => false
  | x :: xs => if x = k then true else keyMem k xs

/-- Redis `DEL keys...`: drop every entry whose key is listed. -/
def clientDelMany : RCache → List String → RCache
  | [], _ => []
  | p :: rest, ks => if keyMem p.1 ks then clientDelMany rest ks else p :: clientDelMany rest ks

/-- Number of entries Redis `DEL` removes (its integer reply). -/
def clientDelCount : RCache → List String → Nat
  | [], _ => 0
  | p :: rest, ks => (if keyMem p.1 ks then 1 else 0) + clientDelCount rest ks

/-- Redis `KEYS "temp:*"`: every cached key matching the glob, i.e. starting
with the reserved temporary namespace `temp:` (`*` matches any suffix). -/
def clientKeysTemp : RCache → List String
  | [] => []
  | p :: rest =>
    if p.1.startsWith "temp:" then p.1 :: clientKeysTemp rest else clientKeysTemp rest

/-- `INSERT ... ON DUPLICATE KEY UPDATE`: upsert by unique key. -/
def sqlTableUpsert (t : SqlTable) (k v : String) : SqlTable :=
  fun x => if x = k then some v else t x

/-- `DELETE FROM storekey WHERE keyX = ?`. -/
def sqlTableDelete (t : SqlTable) (k : String) : SqlTable :=
  fun x => if x = k then none else t x

/-- `getSqlApi().get` (source lines 133-141): SELECT, then emit
`{key, value, on: "SQL"}`. No try/catch: a query rejection propagates. -/
def sqlGet (f : Faults) (st : DBState) (key : String) :
    Except String (Option String) × DBState × List StoreEvent :=
  if f.sqlGetFails then (.error "SQL error", st, [])
  else
    let value := st.sql key
    (.ok value, st, [⟨"get", key, value, "SQL"⟩])

/-- `getSqlApi().set` (source lines 143-149): upsert, then emit
`{key, value, on: "SQL"}`. No try/catch: a query rejection propagates. -/
def sqlSet (f : Faults) (st : DBState) (key value : String) :
    Except String Unit × DBState × List StoreEvent :=
  if f.sqlSetFails then (.error "SQL error", st, [])
  else (.ok (), ⟨sqlTableUpsert st.sql key value, st.cache⟩, [⟨"set", key, some value, "SQL"⟩])

/-- `getSqlApi().delete` (source lines 151-158): DELETE, then emit
`{key, on: "SQL"}` — the event has no value field. No try/catch. -/
def sqlDelete (f : Faults) (st : DBState) (key : String) :
    Except String Unit × DBState × List StoreEvent :=
  if f.sqlDeleteFails then (.error "SQL error", st, [])
  else (.ok (), ⟨sqlTableDelete st.sql key, st.cache⟩, [⟨"delete", key, none, "SQL"⟩])

/-- `getRedisApi().get` (source lines 171-182): try `client.get`, emit
`{key, value, on: "REDIS"}`, return the value; on a rejection the catch logs
and returns `null` (no event is emitted, since emit follows the await). -/
def redisGet (f : Faults) (st : DBState) (key : String) :
    Option String × DBState × List StoreEvent :=
  if f.redisGetFails then (none, st, [])
  else
    let value := clientGet st.cache key
    (value, st, [⟨"get", key, value, "REDIS"⟩])

/-- `getRedisApi().set` (source lines 183-200): try `client.set`, emit
`{key, value, on: "REDIS"}`, then `if (expire)` (truthy numeric test) call
`client.expire`; return `true`. On a rejection the catch logs and returns
`false` (state unchanged, no event). -/
def redisSet (f : Faults) (st : DBState) (key value : String) (expire : Option Nat) :
    Bool × DBState × List StoreEvent :=
  if f.redisSetFails then (false, st, [])
  else
    let c1 := clientSet st.cache key value
    let evs := [(⟨"set", key, some value, "REDIS"⟩ : StoreEvent)]
    match expire with
    | some e => if e = 0 then (true, ⟨st.sql, c1⟩, evs) else (true, ⟨st.sql, clientExpire c1 key e⟩, evs)
    | none => (true, ⟨st.sql, c1⟩, evs)

/-- `getRedisApi().delete` on a single key (source lines 220-226):
`client.del(key)`, returning the removal count. It emits NO event and has
no try/catch (a rejection propagates to whoever awaits it). -/
def redisDeleteOne (f : Faults) (st : DBState) (key : String) :
    Except String Nat × DBState × List StoreEvent :=
  if f.redisDelFails then (.error "Redis error", st, [])
  else (.ok (clientDelCount st.cache [key]), ⟨st.sql, clientDelMany st.cache [key]⟩, [])

/-- `getRedisApi().delete` on a key list (source lines 220-226):
`client.del([...keys])`. Emits no event. -/
def redisDeleteMany (f : Faults) (st : DBState) (keys : List String) :
    Except String Nat × DBState × List StoreEvent :=
  if f.redisDelFails then (.error "Redis error", st, [])
  else (.ok (clientDelCount st.cache keys), ⟨st.sql, clientDelMany st.cache keys⟩, [])

/-- `getRedisApi().flush("TEMP")` (source lines 201-219): `client.keys("temp:*")`,
then — only when some keys matched — `this.redis.delete(keys)` inside the
`.then` callback; the function itself returns `"ERR"` (the `"OK"` inside the
callback is discarded). A rejection of the inner delete leaves the cache
unchanged. -/
def redisFlushTemp (f : Faults) (st : DBState) : String × DBState × List StoreEvent :=
  let keys := clientKeysTemp st.cache
  if keys.length > 0 then
    let r := redisDeleteMany f st keys
    ("ERR", r.2.1, r.2.2)
  else ("ERR", st, [])

/-- `this.defaultExpire = config?.defaultExpire || 60 * 60` (source line 69):
JavaScript `||` falls back to 3600 when the option is absent OR `0` (falsy). -/
def defaultExpireVal : Option Nat → Nat
  | none => 60 * 60
  | some n => if n = 0 then 60 * 60 else n

/-- The facade `this.get` (source lines 89-101): await `redis.get`; if the
response is truthy, RETURN THE LOOKUP KEY (line 92 is `return key`); otherwise
await `sql.get` (a rejection propagates), and if that value is truthy, fire
`redis.set(key, value, {expire: defaultExpire})` (not awaited; its effect
still applies) and return the value; otherwise return `null`. -/
def facadeGet (f : Faults) (cfg : Option Nat) (st : DBState) (key : String) :
    Except String (Option String) × DBState × List StoreEvent :=
  let r1 := redisGet f st key
  if truthyStr r1.1 then (.ok (some key), r1.2.1, r1.2.2)
  else
    let r2 := sqlGet f r1.2.1 key
    match r2.1 with
    | .error e => (.error e, r2.2.1, r1.2.2 ++ r2.2.2)
    | .ok none => (.ok none, r2.2.1, r1.2.2 ++ r2.2.2)
    | .ok (some v) =>
      if v = "" then (.ok none, r2.2.1, r1.2.2 ++ r2.2.2)
      else
        let r3 := redisSet f r2.2.1 key v (some (defaultExpireVal cfg))
        (.ok (some v), r3.2.1, r1.2.2 ++ r2.2.2 ++ r3.2.2)

/-- The facade `this.set` (source lines 103-106): `sql.set(key, value)` and
`redis.set(key, value, {expire: defaultExpire})`, NEITHER awaited. Both
effects apply; a `sql.set` rejection is an unhandled promise rejection and
neither stops the cache write nor fails the facade call. -/
def facadeSet (f : Faults) (cfg : Option Nat) (st : DBState) (key value : String) :
    DBState × List StoreEvent :=
  let r1 := sqlSet f st key value
  let r2 := redisSet f r1.2.1 key value (some (defaultExpireVal cfg))
  (r2.2.1, r1.2.2 ++ r2.2.2)

/-- The facade `this.delete` (source lines 108-111): `sql.delete(key)` then
`redis.delete(key)`, neither awaited; rejections are unhandled. -/
def facadeDelete (f : Faults) (st : DBState) (key : String) : DBState × List StoreEvent :=
  let r1 := sqlDelete f st key
  let r2 := redisDeleteOne f r1.2.1 key
  (r2.2.1, r1.2.2 ++ r2.2.2)

/-- The constructor URI checks (source lines 73-77):
`if (!redisURI) throw ...; else if (!sqlURI) throw ...`. JavaScript `!` on a
`string | undefined` is the negation of `truthyStr`: `undefined` and `""`
both throw. -/
def validateURIs (redisURI sqlURI : Option String) : Except String Unit :=
  if truthyStr redisURI = false then .error "Keystore Error: No REDIS URI found!"
  else if truthyStr sqlURI = false then .error "Keystore Error: No SQL URI found!"
  else .ok ()

/-! ### Asynchronous trace model for the write paths

`facadeSet` and `facadeDelete` call their two tier operations WITHOUT `await`
(source lines 103-111). Under the JavaScript event loop, the synchronous body
initiates the SQL request, then initiates the Redis request, and only after
the body has finished can either request's completion be processed; the two
completions then land in an order chosen by the environment. The traces below
record this: two `start` marks in program order followed by the two `complete`
marks in either schedule order. -/

/-- A mark in the asynchronous execution trace: an operation being initiated
(its client call dispatched) or completed (its promise resolved). -/
inductive AsyncEv where
  | start : String → AsyncEv
  | complete : String → AsyncEv
deriving DecidableEq, Repr

/-- Index of the first occurrence of a mark in a trace. -/
def idxOfEv : List AsyncEv → AsyncEv → Nat
  | [], _ => 0
  | x :: xs, a => if x = a then 0 else idxOfEv xs a + 1

/-- Boolean membership of a mark in a trace. -/
def evMem : List AsyncEv → AsyncEv → Bool
  | [], _ => false
  | x :: xs, a => if x = a then true else evMem xs a

/-- `a` occurs strictly before `b` in trace `t` (both present). -/
def strictlyBefore (t : List AsyncEv) (a b : AsyncEv) : Bool :=
  evMem t a && evMem t b && decide (idxOfEv t a < idxOfEv t b)

/-- Trace of one `this.set(key, value)` call (source lines 103-106):
`this.sql.set(key, value);` starts the SQL upsert (no await), then
`this.redis.set(key, value, {...})` starts the cache write (no await); the
body then returns and the two in-flight requests complete in an order chosen
by the scheduler (`sqlCompletesFirst`). -/
def facadeSetAsyncTrace (sqlCompletesFirst : Bool) : List AsyncEv :=
  [.start "sql.set", .start "redis.set"] ++
    (if sqlCompletesFirst then [.complete "sql.set", .complete "redis.set"]
     else [.complete "redis.set", .complete "sql.set"])

/-- Trace of one `this.delete(key)` call (source lines 108-111): same shape
as `facadeSetAsyncTrace`, with `sql.delete` and `redis.delete`. -/
def facadeDeleteAsyncTrace (sqlCompletesFirst : Bool) : List AsyncEv :=
  [.start "sql.delete", .start "redis.delete"] ++
    (if sqlCompletesFirst then [.complete "sql.delete", .complete "redis.delete"]
     else [.complete "redis.delete", .complete "sql.delete"])

/-! ### Helper lemmas -/

lemma defaultExpireVal_ne_zero (cfg : Option Nat) : defaultExpireVal cfg ≠ 0 := by
  cases cfg with
  | none => simp [defaultExpireVal]
  | some n =>
    by_cases h : n = 0 <;> simp [defaultExpireVal, h]

lemma cacheLookup_clientExpire_self (c : RCache) (k : String) (t : Nat) :
    cacheLookup (clientExpire c k t) k = (cacheLookup c k).map (fun e => ⟨e.value, some t⟩) := by
  induction c with
  | nil => simp [clientExpire, cacheLookup]
  | cons p rest ih =>
    by_cases h : p.1 = k <;> simp [clientExpire, cacheLookup, h, ih]

lemma cacheLookup_clientSet_self (c : RCache) (k v : String) :
    cacheLookup (clientSet c k v) k = some ⟨v, none⟩ := by
  simp [clientSet, cacheLookup]

/-- The cache entry produced by a successful `redisSet` with a nonzero TTL. -/
lemma redisSet_cache_lookup (f : Faults) (hf : f.redisSetFails = false)
    (st : DBState) (k v : String) (E : Nat) (hE : E ≠ 0) :
    cacheLookup (redisSet f st k v (some E)).2.1.cache k = some ⟨v, some E⟩ := by
  simp only [redisSet, hf, Bool.false_eq_true, if_false, if_neg hE]
  simp [cacheLookup_clientExpire_self, cacheLookup_clientSet_self]

/-- `redisSet` never touches the SQL tier. -/
lemma redisSet_sql (f : Faults) (st : DBState) (k v : String) (e : Option Nat) :
    (redisSet f st k v e).2.1.sql = st.sql := by
  cases e with
  | none =>
    by_cases hf : f.redisSetFails <;> simp [redisSet, hf]
  | some n =>
    by_cases hf : f.redisSetFails
    · simp [redisSet, hf]
    · by_cases hn : n = 0 <;> simp [redisSet, hf, hn]

lemma cacheLookup_clientDelMany (c : RCache) (ks : List String) (k : String) :
    cacheLookup (clientDelMany c ks) k = if keyMem k ks then none else cacheLookup c k := by
  induction c with
  | nil => simp [clientDelMany, cacheLookup]
  | cons p rest ih =>
    obtain ⟨pk, pe⟩ := p
    by_cases hpk : pk = k
    · subst hpk
      by_cases hm : keyMem pk ks <;> simp [clientDelMany, cacheLookup, hm, ih]
    · by_cases hm : keyMem pk ks <;> simp [clientDelMany, cacheLookup, hpk, hm, ih]

lemma keyMem_clientKeysTemp (c : RCache) (k : String) :
    keyMem k (clientKeysTemp c) = (k.startsWith "temp:" && (cacheLookup c k).isSome) := by
  induction c with
  | nil => simp [clientKeysTemp, keyMem, cacheLookup]
  | cons p rest ih =>
    obtain ⟨pk, pe⟩ := p
    by_cases hpre : pk.startsWith "temp:"
    · rw [clientKeysTemp]
      simp only [hpre, if_true]
      rw [keyMem]
      by_cases hpk : pk = k
      · subst hpk
        simp [cacheLookup, hpre]
      · rw [if_neg hpk, ih, cacheLookup, if_neg hpk]
    · rw [clientKeysTemp]
      simp only [Bool.not_eq_true] at hpre
      simp only [hpre, Bool.false_eq_true, if_false]
      rw [ih, cacheLookup]
      by_cases hpk : pk = k
      · subst hpk
        simp [hpre]
      · rw [if_neg hpk]

/-! ### Claims -/

/-- C1 (code bug): with the cache holding `k1 ↦ v1`, the facade `get("k1")`
returns `"k1"` — the lookup key — and not the cached value `"v1"` (source
line 92 is `return key`). The spec's contract requires the stored value, so
the code contradicts the documented intent. -/
theorem c1_cache_hit_returns_key :
    (facadeGet noFaults none ⟨fun _ => none, [("k1", ⟨"v1", none⟩)]⟩ "k1").1 = .ok (some "k1")
      ∧ ("k1" : String) ≠ "v1" := by
  exact ⟨rfl, by decide⟩

/-- C2 (code bug): after `set("a", "b")` succeeds, `get("a")` with the entry
still cached returns `"a"` (the key) rather than `"b"`, because of the
cache-hit bug on source line 92; only with the cache cleared does `get("a")`
return `"b"` from the durable store. -/
theorem c2_set_then_get_behavior :
    (facadeGet noFaults none (facadeSet noFaults none ⟨fun _ => none, []⟩ "a" "b").1 "a").1
        = .ok (some "a")
      ∧ (facadeGet noFaults none
          ⟨(facadeSet noFaults none ⟨fun _ => none, []⟩ "a" "b").1.sql, []⟩ "a").1
        = .ok (some "b")
      ∧ ("a" : String) ≠ "b" := by
  exact ⟨rfl, rfl, by decide⟩

/-- C3 counterexample: starting from the empty state, `set("k", "v")` with a
failing durable (SQL) write still leaves `v` in the cache for `k` — while the
durable store does not contain it — because source lines 104-105 issue both
writes unconditionally without awaiting the SQL write. -/
theorem c3_counterexample :
    cacheLookup (facadeSet sqlSetFail none ⟨fun _ => none, []⟩ "k" "v").1.cache "k"
        = some ⟨"v", some 3600⟩
      ∧ (facadeSet sqlSetFail none ⟨fun _ => none, []⟩ "k" "v").1.sql "k" = none := by
  exact ⟨rfl, rfl⟩

/-- C3 amended: when the durable-store write in `set(k, v)` fails, the cache
write still occurs — afterwards the cache holds `v` for `k` under the default
TTL, while the durable store is unchanged. -/
theorem c3_amended_cache_written (cfg : Option Nat) (st : DBState) (k v : String) :
    cacheLookup (facadeSet sqlSetFail cfg st k v).1.cache k
        = some ⟨v, some (defaultExpireVal cfg)⟩
      ∧ (facadeSet sqlSetFail cfg st k v).1.sql = st.sql := by
  have hface : (facadeSet sqlSetFail cfg st k v).1
      = (redisSet sqlSetFail st k v (some (defaultExpireVal cfg))).2.1 := by
    simp [facadeSet, sqlSet, sqlSetFail]
  rw [hface]
  exact ⟨redisSet_cache_lookup sqlSetFail rfl st k v _ (defaultExpireVal_ne_zero cfg),
    redisSet_sql sqlSetFail st k v _⟩

/-- C4 counterexample: in the execution trace of one facade `set` call — even
under the schedule most favourable to the claim, where the SQL request
completes first — the durable-store step does NOT complete before the cache
step begins, because neither call on source lines 104-105 is awaited. -/
theorem c4_counterexample :
    strictlyBefore (facadeSetAsyncTrace true) (.complete "sql.set") (.start "redis.set")
      = false := by
  decide

/-- C4 amended: within a single facade `set` or `delete` call the
durable-store step is only INITIATED before the cache step is initiated;
since neither step is awaited, the cache step begins before the durable-store
step completes, under every completion schedule. -/
theorem c4_amended_initiation_order :
    ∀ b : Bool,
      (strictlyBefore (facadeSetAsyncTrace b) (.start "sql.set") (.start "redis.set") = true
        ∧ strictlyBefore (facadeSetAsyncTrace b) (.start "redis.set") (.complete "sql.set") = true)
      ∧ (strictlyBefore (facadeDeleteAsyncTrace b) (.start "sql.delete") (.start "redis.delete") = true
        ∧ strictlyBefore (facadeDeleteAsyncTrace b) (.start "redis.delete") (.complete "sql.delete") = true) := by
  decide

/-- C6 counterexample: with both URIs present but the Redis URI equal to the
empty string, construction still throws the missing-REDIS-URI error, because
`if (!redisURI)` treats the empty string as falsy (source line 73). -/
theorem c6_counterexample :
    validateURIs (some "") (some "mysql://host/db")
      = .error "Keystore Error: No REDIS URI found!" := by
  rfl

/-- C6 amended: construction succeeds the URI checks exactly when both the
Redis URI and the SQL URI are present AND nonempty; an absent or empty URI
raises the corresponding setup error. -/
theorem c6_amended_validation (redisURI sqlURI : Option String) :
    validateURIs redisURI sqlURI = .ok ()
      ↔ (truthyStr redisURI = true ∧ truthyStr sqlURI = true) := by
  by_cases h1 : truthyStr redisURI <;> by_cases h2 : truthyStr sqlURI <;>
    simp [validateURIs, h1, h2]

/-- C5 counterexample: on a cache miss with a failing durable-store get, the
facade `get` rejects with the adapter's error — the SQL adapter has no
try/catch (source lines 133-141), so the error propagates to the caller
instead of being converted to a benign return. -/
theorem c5_counterexample :
    (facadeGet sqlGetFail none ⟨fun _ => none, []⟩ "k").1 = .error "SQL error" := by
  rfl

/-- C5 amended: only the cache adapter's get and set catch a failing client
call locally and convert it to a benign return (`null` and `false`); the
durable-store adapter does not catch, so a durable-store get failure on a
cache miss propagates out of the facade `get` as an exception. -/
theorem c5_amended_error_handling (cfg : Option Nat) (st : DBState) (k v : String)
    (e : Option Nat) (h : clientGet st.cache k = none) :
    (redisGet redisGetFail st k).1 = none
      ∧ (redisSet redisSetFail st k v e).1 = false
      ∧ (facadeGet sqlGetFail cfg st k).1 = .error "SQL error" := by
  refine ⟨rfl, ?_, ?_⟩
  · simp [redisSet, redisSetFail]
  · simp [facadeGet, redisGet, sqlGet, sqlGetFail, h, truthyStr]

/-- C5 witness: the amended statement at the empty state. -/
theorem c5_amended_witness :
    (redisGet redisGetFail ⟨fun _ => none, []⟩ "k").1 = none
      ∧ (redisSet redisSetFail ⟨fun _ => none, []⟩ "k" "v" none).1 = false
      ∧ (facadeGet sqlGetFail none ⟨fun _ => none, []⟩ "k").1 = .error "SQL error" :=
  c5_amended_error_handling none ⟨fun _ => none, []⟩ "k" "v" none rfl

/-- C7 counterexample: the durable store holds `k ↦ ""` and the cache is
empty, yet `get("k")` returns absent and does NOT repopulate the cache: the
`if (mySqlResponse)` truthiness test on source line 95 treats the empty
string as a miss. -/
theorem c7_counterexample :
    ((fun x => if x = "k" then some "" else none : SqlTable) "k" = some "")
      ∧ (facadeGet noFaults none ⟨fun x => if x = "k" then some "" else none, []⟩ "k").1
          = .ok none
      ∧ cacheLookup
          (facadeGet noFaults none ⟨fun x => if x = "k" then some "" else none, []⟩ "k").2.1.cache
          "k" = none := by
  exact ⟨rfl, rfl, rfl⟩

/-- C7 amended: for a key absent from the cache whose durable value `v` is
NONEMPTY, `get(k)` returns `v` and repopulates the cache entry for `k` with
`v` under the configured default TTL, which defaults to 3600 seconds. -/
theorem c7_amended_read_through (cfg : Option Nat) (st : DBState) (k v : String)
    (hc : cacheLookup st.cache k = none) (hs : st.sql k = some v) (hv : v ≠ "") :
    (facadeGet noFaults cfg st k).1 = .ok (some v)
      ∧ cacheLookup (facadeGet noFaults cfg st k).2.1.cache k
          = some ⟨v, some (defaultExpireVal cfg)⟩
      ∧ defaultExpireVal none = 3600 := by
  have hr1 : clientGet st.cache k = none := by simp [clientGet, hc]
  have h1 : (facadeGet noFaults cfg st k).1 = .ok (some v) := by
    simp [facadeGet, redisGet, sqlGet, noFaults, hr1, truthyStr, hs, hv]
  have h2 : (facadeGet noFaults cfg st k).2.1
      = (redisSet noFaults st k v (some (defaultExpireVal cfg))).2.1 := by
    simp [facadeGet, redisGet, sqlGet, noFaults, hr1, truthyStr, hs, hv]
  refine ⟨h1, ?_, rfl⟩
  rw [h2]
  exact redisSet_cache_lookup noFaults rfl st k v _ (defaultExpireVal_ne_zero cfg)

/-- C7 witness: read-through repopulation with durable record `k ↦ v` and an
empty cache, default TTL configuration. -/
theorem c7_amended_witness :
    (facadeGet noFaults none ⟨fun x => if x = "k" then some "v" else none, []⟩ "k").1
        = .ok (some "v")
      ∧ cacheLookup
          (facadeGet noFaults none ⟨fun x => if x = "k" then some "v" else none, []⟩ "k").2.1.cache
          "k" = some ⟨"v", some (defaultExpireVal none)⟩
      ∧ defaultExpireVal none = 3600 :=
  c7_amended_read_through none ⟨fun x => if x = "k" then some "v" else none, []⟩ "k" "v"
    rfl rfl (by decide)

/-- C8: the temporary-namespace flush removes exactly the cache keys starting
with the reserved `temp:` prefix — after `flush("TEMP")` any `temp:`-prefixed
key misses and every other key is untouched. -/
theorem c8_temp_flush (st : DBState) (k : String) :
    cacheLookup (redisFlushTemp noFaults st).2.1.cache k
      = if k.startsWith "temp:" then none else cacheLookup st.cache k := by
  by_cases h : (clientKeysTemp st.cache).length > 0
  · have hred : (redisFlushTemp noFaults st).2.1.cache
        = clientDelMany st.cache (clientKeysTemp st.cache) := by
      simp [redisFlushTemp, redisDeleteMany, noFaults, h]
    rw [hred, cacheLookup_clientDelMany, keyMem_clientKeysTemp]
    by_cases hpre : k.startsWith "temp:"
    · cases hlo : cacheLookup st.cache k <;> simp [hpre, hlo]
    · simp [hpre]
  · have h0 : clientKeysTemp st.cache = [] := by
      cases hk : clientKeysTemp st.cache with
      | nil => rfl
      | cons a l => rw [hk] at h; simp at h
    have hred : (redisFlushTemp noFaults st).2.1.cache = st.cache := by
      simp [redisFlushTemp, h0]
    rw [hred]
    have hmem := keyMem_clientKeysTemp st.cache k
    rw [h0] at hmem
    by_cases hpre : k.startsWith "temp:"
    · rw [if_pos hpre]
      cases hlo : cacheLookup st.cache k with
      | none => rfl
      | some e =>
        rw [hpre, hlo] at hmem
        simp [keyMem] at hmem
    · rw [if_neg hpre]

/-- C9 counterexample: a successful cache-tier delete (it removes the entry
and replies `1`) emits NO event — `getRedisApi().delete` (source lines
220-226) contains no `this.emit` call. -/
theorem c9_counterexample :
    (redisDeleteOne noFaults ⟨fun _ => none, [("a", ⟨"1", none⟩)]⟩ "a").1 = .ok 1
      ∧ (redisDeleteOne noFaults ⟨fun _ => none, [("a", ⟨"1", none⟩)]⟩ "a").2.2 = [] := by
  exact ⟨rfl, rfl⟩

/-- C9 amended: every successful get and set against either tier, and every
successful durable-store delete, emits exactly one structured event carrying
the operation, key, value (or absence) and tier — but the cache-tier delete
emits no event at all (and the durable delete's event carries no value). -/
theorem c9_amended_events (st : DBState) (k v : String) (e : Option Nat) (ks : List String) :
    (sqlGet noFaults st k).2.2 = [⟨"get", k, st.sql k, "SQL"⟩]
      ∧ (sqlSet noFaults st k v).2.2 = [⟨"set", k, some v, "SQL"⟩]
      ∧ (sqlDelete noFaults st k).2.2 = [⟨"delete", k, none, "SQL"⟩]
      ∧ (redisGet noFaults st k).2.2 = [⟨"get", k, clientGet st.cache k, "REDIS"⟩]
      ∧ (redisSet noFaults st k v e).2.2 = [⟨"set", k, some v, "REDIS"⟩]
      ∧ (redisDeleteOne noFaults st k).2.2 = []
      ∧ (redisDeleteMany noFaults st ks).2.2 = [] := by
  refine ⟨rfl, rfl, rfl, rfl, ?_, rfl, rfl⟩
  cases e with
  | none => rfl
  | some n => by_cases hn : n = 0 <;> simp [redisSet, noFaults, hn]

/-- C10: a `defaultExpire` explicitly configured as 0 falls back to 3600
(JavaScript `||` treats 0 as unset, source line 69), and with that
configuration both the write-through `set` and the read-through
repopulation in `get` store the cache entry with a 3600-second TTL. -/
theorem c10_zero_expire_fallback (st : DBState) (k v : String)
    (hc : cacheLookup st.cache k = none) (hs : st.sql k = some v) (hv : v ≠ "") :
    defaultExpireVal (some 0) = 3600
      ∧ cacheLookup (facadeSet noFaults (some 0) st k v).1.cache k = some ⟨v, some 3600⟩
      ∧ cacheLookup (facadeGet noFaults (some 0) st k).2.1.cache k = some ⟨v, some 3600⟩ := by
  have h35 : defaultExpireVal (some 0) = 3600 := rfl
  refine ⟨h35, ?_, ?_⟩
  · have hface : (facadeSet noFaults (some 0) st k v).1
        = (redisSet noFaults ⟨sqlTableUpsert st.sql k v, st.cache⟩ k v
            (some (defaultExpireVal (some 0)))).2.1 := by
      simp [facadeSet, sqlSet, noFaults]
    rw [hface, ← h35]
    exact redisSet_cache_lookup noFaults rfl ⟨sqlTableUpsert st.sql k v, st.cache⟩ k v _
      (defaultExpireVal_ne_zero _)
  · have hr1 : clientGet st.cache k = none := by simp [clientGet, hc]
    have h2 : (facadeGet noFaults (some 0) st k).2.1
        = (redisSet noFaults st k v (some (defaultExpireVal (some 0)))).2.1 := by
      simp [facadeGet, redisGet, sqlGet, noFaults, hr1, truthyStr, hs, hv]
    rw [h2, ← h35]
    exact redisSet_cache_lookup noFaults rfl st k v _ (defaultExpireVal_ne_zero _)

/-- C10 witness: the zero-TTL fallback with durable record `k ↦ v` and an
empty cache. -/
theorem c10_witness :
    defaultExpireVal (some 0) = 3600
      ∧ cacheLookup
          (facadeSet noFaults (some 0) ⟨fun x => if x = "k" then some "v" else none, []⟩
            "k" "v").1.cache "k" = some ⟨"v", some 3600⟩
      ∧ cacheLookup
          (facadeGet noFaults (some 0) ⟨fun x => if x = "k" then some "v" else none, []⟩
            "k").2.1.cache "k" = some ⟨"v", some 3600⟩ :=
  c10_zero_expire_fallback ⟨fun x => if x = "k" then some "v" else none, []⟩ "k" "v"
    rfl rfl (by decide)
